import Mathlib

/-!
Verification of the agntor SDK trust & safety pipeline.

This development shallowly embeds the core of the SDK — the pattern guard
(`src/guard.ts`), the redaction engine (`src/redact.ts`), the tool policy
check and composition wrapper (`src/tool-guard.ts`), the settlement guard
(`settlement-guard.ts`) and the network safety check (`src/utils/network.ts`)
— as executable Lean definitions, and proves the spec's claims about them.

Modelling conventions:
* JavaScript regular expressions are external engine behaviour; a pattern is
  embedded as its observable match function (`String → Bool` for the guard's
  `test`, `String → List (Nat × String)` for the redactor's `matchAll`,
  yielding (index, matched text) pairs).  Literal-string matchers
  (`litMatches`) provide concrete executable instances.
* The asynchronous LLM classifier is an oracle `String → ClassifyOutcome`;
  `ClassifyOutcome.failure msg` covers both a rejected promise and a response
  failing the zod `{classification, reasoning}` shape check, carrying the
  error message text.  Functions that catch classifier errors are embedded as
  total functions; where the source invokes an optional `onError` callback the
  embedding additionally returns the argument the callback would receive.
* JavaScript numbers for risk scores are modelled exactly: every weight in
  the source (0.5, 0.3, 0.15, 0.1, 0.4, thresholds 0.7 and 0.5, cap 1.0) is a
  multiple of 0.05, so scores are carried as naturals scaled by 20
  (1.0 risk = 20 units).  Parsed decimal amounts are carried exactly as an
  (integer part, fraction digits) pair.  IEEE-754 rounding is not modelled.
* DNS lookup and the `ipaddr.js` library are oracles
  (`dns : String → Option (List String)`, `none` = lookup failure;
  `ipValid`, `ipPrivate : String → Bool`), and WHATWG URL parsing is an
  oracle `String → Option UrlParts`.
-/

namespace Agntor

/-! ### Shared basics -/

/-- Verdict classification used by guard, settlement guard and classifiers. -/
inductive Classification where
  | pass
  | block
deriving DecidableEq

/-- Outcome of one call to the external LLM classifier capability.
`ok` is a response that parsed against the `{classification, reasoning}`
schema; `failure` is a thrown error or a schema-mismatched response, with the
error's message text. -/
inductive ClassifyOutcome where
  | ok (classification : Classification) (reasoning : String)
  | failure (msg : String)
deriving DecidableEq

/-- ASCII lower-casing of one character (model of JS `toLowerCase` on the
ASCII range, which is all the source compares). -/
def charLower (c : Char) : Char :=
  if 'A' ≤ c ∧ c ≤ 'Z' then Char.ofNat (c.toNat + 32) else c

/-- Model of JS `String.prototype.toLowerCase` (ASCII range). -/
def strLower (s : String) : String :=
  String.mk (s.data.map charLower)

/-- Whitespace test for the model of JS `String.prototype.trim`. -/
def isJsSpace (c : Char) : Bool :=
  c == ' ' || c == '\t' || c == '\n' || c == '\r' || c.toNat == 11 || c.toNat == 12

/-- Model of JS `String.prototype.trim`. -/
def strTrim (s : String) : String :=
  String.mk (((s.data.dropWhile isJsSpace).reverse.dropWhile isJsSpace).reverse)

/-- Data of a string concatenation (used to reason about substring facts). -/
theorem strData_append (a b : String) : (a ++ b).data = a.data ++ b.data := rfl

/-- Order- and first-occurrence-preserving deduplication, the model of the
source's `[...new Set(xs)]`. -/
def dedupAux (seen : List String) : List String → List String
  | [] => []
  | x :: xs => if seen.contains x then dedupAux seen xs else x :: dedupAux (x :: seen) xs

/-- Deduplicate a list keeping first occurrences (JS `[...new Set(xs)]`). -/
def dedupKeepFirst (l : List String) : List String := dedupAux [] l

/-! ### Pattern Guard (`src/guard.ts`) -/

/-- Guard-relevant policy fields: caller-supplied injection patterns (each
embedded as its regex `test` function) and the violation-type → CWE map. -/
structure GuardPolicy where
  injectionPatterns : List (String → Bool)
  cweMap : String → Option String

/-- Options of `guard`: the deep-scan flag and the optional classifier. -/
structure GuardOptions where
  deepScan : Bool
  provider : Option (String → ClassifyOutcome)

/-- Token usage estimate attached to every guard result. -/
structure UsageEstimate where
  promptTokens : Nat
  completionTokens : Nat
  totalTokens : Nat
deriving DecidableEq

/-- Result record of `guard` (`GuardResult` in `src/types.ts`). -/
structure GuardResult where
  classification : Classification
  violation_types : List String
  cwe_codes : List String
  reasoning : Option String
  providerError : Option String
  usage : UsageEstimate
deriving DecidableEq

/-- Count of `[`, `]`, `{`, `}` characters, the source's
`(input.match(/\[|\]|\{|\}/g) || []).length`. -/
def bracketCount (input : String) : Nat :=
  (input.data.filter fun c => c = '[' ∨ c = ']' ∨ c = '{' ∨ c = '}').length

/-- Outcome of the optional deep-scan pass: violation types it appends, the
classifier's reasoning, the recorded provider error, and the argument passed
to the optional `onError` callback (`none` = callback not invoked). -/
structure DeepScanOutcome where
  adds : List String
  reasoning : Option String
  providerError : Option String
  callbackArg : Option String

/-- Final assembly of a `GuardResult` from the collected violation list
(the tail of `guard` in `src/guard.ts`): classification is `block` iff the
violation list is non-empty, violation and CWE lists are deduplicated, and a
`ceil(length/4)` token estimate is attached. -/
def guardCore (input : String) (policy : GuardPolicy) (violations : List String)
    (reasoning providerError : Option String) : GuardResult :=
  { classification := if violations.isEmpty then .pass else .block
    violation_types := dedupKeepFirst violations
    cwe_codes := dedupKeepFirst (violations.filterMap policy.cweMap)
    reasoning := reasoning
    providerError := providerError
    usage := ⟨(input.length + 3) / 4, 0, (input.length + 3) / 4⟩ }

/-- Embedding of `guard` (`src/guard.ts`).  `builtins` stands for
`DEFAULT_INJECTION_PATTERNS` (each regex as its `test` function); the source
prepends them to the caller's patterns.  Returns the `GuardResult` paired
with the argument handed to the optional `onError` callback.  The source's
`try/catch` around the classifier makes the function total: a failing
classifier contributes no violations and is recorded as `providerError`. -/
def guard (builtins : List (String → Bool)) (input : String) (policy : GuardPolicy)
    (opts : GuardOptions) : GuardResult × Option String :=
  let patterns := builtins ++ policy.injectionPatterns
  let lexical := (patterns.filter fun p => p input).map fun _ => "prompt-injection"
  let heuristic := if 20 < bracketCount input then ["potential-obfuscation"] else []
  let deep : DeepScanOutcome :=
    match opts.deepScan, opts.provider with
    | true, some classify =>
      match classify input with
      | .ok c reasoning =>
        ⟨if c = .block then ["llm-flagged-injection"] else [], some reasoning, none, none⟩
      | .failure msg => ⟨[], none, some msg, some msg⟩
    | _, _ => ⟨[], none, none, none⟩
  (guardCore input policy (lexical ++ heuristic ++ deep.adds) deep.reasoning deep.providerError,
   deep.callbackArg)

/-! ### Redaction Engine (`src/redact.ts`) -/

/-- One redaction pattern: a type tag, the global regex embedded as its
`matchAll` function (returning (index, matched text) pairs), and an optional
replacement (default `[REDACTED]`).  The built-in `DEFAULT_REDACTION_PATTERNS`
are merged with caller patterns into one such list per call. -/
structure RPattern where
  type : String
  matcher : String → List (Nat × String)
  replacement : Option String

/-- One candidate match collected in the `matches` array of `redact`. -/
structure RMatch where
  start : Nat
  stop : Nat
  type : String
  replacement : String
  value : String
deriving DecidableEq

/-- One finding reported by `redact`: type, half-open span, matched value. -/
structure Finding where
  type : String
  span : Nat × Nat
  value : String
deriving DecidableEq

/-- Result record of `redact`. -/
structure RedactResult where
  redacted : String
  findings : List Finding
deriving DecidableEq

/-- Candidate collection phase of `redact`: run every pattern's `matchAll`
over the input, recording start, end (start + match length), type,
resolved replacement, and matched value. -/
def collectMatches (input : String) (pats : List RPattern) : List RMatch :=
  pats.flatMap fun p =>
    (p.matcher input).map fun m =>
      { start := m.1, stop := m.1 + m.2.length, type := p.type,
        replacement := p.replacement.getD "[REDACTED]", value := m.2 }

/-- The source's sort comparator
`(a, b) => a.start - b.start || (b.end - b.start) - (a.end - a.start)`:
start ascending, then span length descending. -/
def matchLE (a b : RMatch) : Prop :=
  a.start < b.start ∨ (a.start = b.start ∧ b.stop - b.start ≤ a.stop - a.start)

instance : DecidableRel matchLE := fun a b => by unfold matchLE; infer_instance

instance : IsTotal RMatch matchLE := ⟨by intro a b; unfold matchLE; omega⟩

instance : IsTrans RMatch matchLE := ⟨by intro a b c; unfold matchLE; omega⟩

/-- Model of the source's `matches.sort(comparator)`.  `Array.prototype.sort`
is stable, and a stable sort under a total preorder has a unique result, so
insertion sort yields exactly the JS sort order. -/
def sortMatches (ms : List RMatch) : List RMatch :=
  List.insertionSort matchLE ms

/-- The single cursor walk of `redact`: skip any candidate starting before
the cursor, otherwise copy the untouched gap, emit the replacement, record a
finding, and advance the cursor to the candidate's end; finally copy the
remaining suffix. -/
def applyMatches (text : List Char) : List RMatch → Nat → List Char × List Finding
  | [], cursor => (text.drop cursor, [])
  | m :: rest, cursor =>
    if m.start < cursor then applyMatches text rest cursor
    else
      let r := applyMatches text rest m.stop
      ((text.drop cursor).take (m.start - cursor) ++ m.replacement.data ++ r.1,
       ⟨m.type, (m.start, m.stop), m.value⟩ :: r.2)

/-- Embedding of `redact` (`src/redact.ts`): collect candidates from the
merged pattern list, sort (start ascending, length descending), then walk
once with a write cursor. -/
def redact (input : String) (pats : List RPattern) : RedactResult :=
  let ms := sortMatches (collectMatches input pats)
  let r := applyMatches input.data ms 0
  { redacted := String.mk r.1, findings := r.2 }

/-- Fuel-driven scanner for `litMatches`; fuel = remaining text length. -/
def litScan (pat : List Char) : Nat → List Char → Nat → List (Nat × String)
  | 0, _, _ => []
  | _ + 1, [], _ => []
  | fuel + 1, c :: rest, i =>
    if pat.isPrefixOf (c :: rest) then
      (i, String.mk pat) :: litScan pat fuel ((c :: rest).drop pat.length) (i + pat.length)
    else litScan pat fuel rest (i + 1)

/-- `matchAll` of a global literal-text regex: leftmost, non-overlapping
occurrences, resuming after each match — a concrete executable matcher. -/
def litMatches (pat : String) (s : String) : List (Nat × String) :=
  if pat.data.isEmpty then [] else litScan pat.data s.data.length s.data 0

/-- The spec's idempotence proviso: no replacement token of any pattern in
the list itself matches any pattern in the list. -/
def replacementTokenFree (pats : List RPattern) : Bool :=
  pats.all fun p => pats.all fun q => (q.matcher (p.replacement.getD "[REDACTED]")).isEmpty

/-! ### Settlement Guard (`settlement-guard.ts`) -/

/-- Exact value of a parsed JS decimal literal: `intPart` before the dot,
`fracVal` the fraction digits as a number, `fracLen` their count.  The
represented value is `intPart + fracVal / 10 ^ fracLen`. -/
structure DecimalNum where
  intPart : Nat
  fracVal : Nat
  fracLen : Nat
deriving DecidableEq

/-- Numerator of a `DecimalNum` over the denominator `10 ^ fracLen`. -/
def DecimalNum.scaled (d : DecimalNum) : Nat :=
  d.intPart * 10 ^ d.fracLen + d.fracVal

/-- Exact comparison `d < k/10` for a parsed decimal. -/
def DecimalNum.ltTenths (d : DecimalNum) (k : Nat) : Bool :=
  decide (10 * d.scaled < k * 10 ^ d.fracLen)

/-- Exact comparison `n < d` for a parsed decimal. -/
def DecimalNum.gtNat (d : DecimalNum) (n : Nat) : Bool :=
  decide (n * 10 ^ d.fracLen < d.scaled)

/-- Decimal rendering of a parsed amount (used only inside message text). -/
def DecimalNum.render (d : DecimalNum) : String :=
  if d.fracLen = 0 then toString d.intPart
  else
    let digits := toString d.fracVal
    toString d.intPart ++ "." ++
      String.mk (List.replicate (d.fracLen - digits.length) '0') ++ digits

/-- The source's `meta.amount.replace(/[^0-9.]/g, '')`. -/
def stripNonNumeric (s : String) : String :=
  String.mk (s.data.filter fun c => c.isDigit || c == '.')

/-- Numeric value of a digit run. -/
def digitsToNat (ds : List Char) : Nat :=
  ds.foldl (fun n c => n * 10 + (c.toNat - 48)) 0

/-- Model of JS `parseFloat` on a string containing only digits and dots
(the shape produced by `stripNonNumeric`): longest prefix `digits [. digits]`;
`none` models `NaN` (no digits at all). -/
def jsParseFloat (s : String) : Option DecimalNum :=
  let d := s.data
  let intDs := d.takeWhile Char.isDigit
  let rest := d.dropWhile Char.isDigit
  let fracDs :=
    match rest with
    | '.' :: t => t.takeWhile Char.isDigit
    | _ => []
  if intDs.isEmpty && fracDs.isEmpty then none
  else some ⟨digitsToNat intDs, digitsToNat fracDs, fracDs.length⟩

/-- Transaction metadata consumed by the settlement guard
(`TransactionMeta` in `src/types.ts`).  The reputation score (a JS number in
[0,1]) is carried exactly as a decimal. -/
structure TransactionMeta where
  amount : String
  currency : String
  recipientAddress : String
  serviceDescription : String
  reputationScore : Option DecimalNum
  chainId : Option Nat
  additionalContext : Option String

/-- The source's `KNOWN_BAD_ADDRESSES` set — empty in the repository
(a placeholder to be fetched from an oracle in production). -/
def KNOWN_BAD_ADDRESSES : List String := []

/-- The zero-address test `/^0x0{40}$/i.test(recipientAddress)`. -/
def isZeroAddress (s : String) : Bool :=
  decide (strLower s = String.mk ('0' :: 'x' :: List.replicate 40 '0'))

/-- Result of the heuristic pass.  `riskScore` is scaled by 20
(1.0 risk = 20 units), so the source's weights 0.5 / 0.3 / 0.15 / 0.1 / 0.5
become 10 / 6 / 3 / 2 / 10 and the cap `Math.min(score, 1)` becomes
`min score 20`. -/
structure HeuristicResult where
  riskScore : Nat
  riskFactors : List String
deriving DecidableEq

/-- Embedding of `heuristicAnalysis`.  The source pushes factors and adds
weights sequentially; conditions are mutually independent, so the
accumulation is written as one sum and one concatenation in source order. -/
def heuristicAnalysis (meta : TransactionMeta) : HeuristicResult :=
  let badPart : Nat × List String :=
    if KNOWN_BAD_ADDRESSES.contains (strLower meta.recipientAddress)
    then (10, ["Recipient address is on the known-bad list"]) else (0, [])
  let repPart : Nat × List String :=
    match meta.reputationScore with
    | some r =>
      if r.ltTenths 3
      then (6, ["Counterparty reputation score (" ++ r.render ++ ") is below threshold (0.3)"])
      else (0, [])
    | none => (0, [])
  let amtPart : Nat × List String :=
    match jsParseFloat (stripNonNumeric meta.amount) with
    | some v =>
      if v.gtNat 500
      then (3, ["Transaction amount ($" ++ v.render ++ ") exceeds high-value threshold ($500)"])
      else (0, [])
    | none => (0, [])
  let descPart : Nat × List String :=
    if (strTrim meta.serviceDescription).length < 10
    then (2, ["Service description is suspiciously short or vague"]) else (0, [])
  let zeroPart : Nat × List String :=
    if isZeroAddress meta.recipientAddress
    then (10, ["Recipient is the zero address"]) else (0, [])
  { riskScore := min (badPart.1 + repPart.1 + amtPart.1 + descPart.1 + zeroPart.1) 20
    riskFactors := badPart.2 ++ repPart.2 ++ amtPart.2 ++ descPart.2 ++ zeroPart.2 }

/-- The natural-language rendering of the metadata sent to the classifier
(`buildSettlementPrompt`). -/
def buildSettlementPrompt (meta : TransactionMeta) : String :=
  let parts : List String :=
    ["You are Agntor\x27s Settlement Guard, a financial security analyst specializing in blockchain transaction risk assessment.",
     "",
     "Analyze the following payment request and determine if it is likely a scam, overpriced, or otherwise high-risk.",
     "",
     "## Transaction Details",
     "- **Amount:** " ++ meta.amount ++ " " ++ meta.currency,
     "- **Recipient address:** " ++ meta.recipientAddress,
     "- **Service description:** \"" ++ meta.serviceDescription ++ "\""]
  let parts := parts ++
    (match meta.reputationScore with
     | some r => ["- **Counterparty reputation score:** " ++ r.render ++ " (0 = no history, 1 = perfect)"]
     | none => [])
  let parts := parts ++
    (match meta.chainId with
     | some c => ["- **Chain ID:** " ++ toString c]
     | none => [])
  let parts := parts ++
    (match meta.additionalContext with
     | some a => ["- **Additional context:** " ++ a]
     | none => [])
  let parts := parts ++
    ["",
     "## Risk Indicators to Consider",
     "1. Is the amount reasonable for the described service?",
     "2. Is the reputation score suspiciously low?",
     "3. Does the contract address appear on known scam lists?",
     "4. Does the service description seem vague, misleading, or designed to extract funds?",
     "5. Are there signs of a honeypot, rug pull, or social engineering?",
     "",
     "Respond with ONLY valid JSON matching this schema:",
     "\x7b",
     "  \"classification\": \"pass\" | \"block\",",
     "  \"reasoning\": \"<detailed explanation of your risk assessment>\"",
     "\x7d",
     "",
     "- \"block\" if the transaction appears high-risk, overpriced, or likely a scam.",
     "- \"pass\" if the transaction appears legitimate and reasonably priced.",
     "",
     "Be conservative — protecting funds is more important than convenience."]
  String.intercalate "\n" parts

/-- Result record of `settlementGuard` (`riskScore` scaled by 20). -/
structure SettlementGuardResult where
  classification : Classification
  reasoning : String
  riskScore : Nat
  riskFactors : List String
deriving DecidableEq

/-- Options of `settlementGuard`: deep-scan flag and optional classifier. -/
structure SettlementGuardOptions where
  deepScan : Bool
  provider : Option (String → ClassifyOutcome)

/-- The final heuristic-only verdict of `settlementGuard` (the source's
trailing `return`), reached when no deep scan ran or the classifier failed:
block at the 0.5 threshold (10 scaled). -/
def heuristicFallback (h : HeuristicResult) : SettlementGuardResult :=
  { classification := if 10 ≤ h.riskScore then .block else .pass
    reasoning :=
      if h.riskFactors.isEmpty then "No risk signals detected."
      else "Heuristic analysis: " ++ String.intercalate "; " h.riskFactors
    riskScore := h.riskScore
    riskFactors := h.riskFactors }

/-- Embedding of `settlementGuard` (`settlement-guard.ts`): heuristic pass,
conclusive short-circuit at riskScore ≥ 0.7 (14 scaled), optional deep scan
adding 0.4 (8 scaled) on a block verdict, deciding at 0.5 (10 scaled);
classifier failure is fail-open.  Returns the result paired with the
argument handed to the optional `onError` callback. -/
def settlementGuard (meta : TransactionMeta) (opts : SettlementGuardOptions) :
    SettlementGuardResult × Option String :=
  let h := heuristicAnalysis meta
  if 14 ≤ h.riskScore then
    ({ classification := .block
       reasoning := "Blocked by heuristic analysis: " ++ String.intercalate "; " h.riskFactors
       riskScore := h.riskScore
       riskFactors := h.riskFactors }, none)
  else
    match opts.deepScan, opts.provider with
    | true, some classify =>
      match classify (buildSettlementPrompt meta) with
      | .ok c reasoning =>
        let factors := if c = .block then h.riskFactors ++ ["LLM flagged as high-risk"] else h.riskFactors
        let combined := if c = .block then min (h.riskScore + 8) 20 else h.riskScore
        ({ classification := if 10 ≤ combined then .block else .pass
           reasoning := reasoning
           riskScore := combined
           riskFactors := factors }, none)
      | .failure msg => (heuristicFallback h, some msg)
    | _, _ => (heuristicFallback h, none)

/-! ### Tool Policy Check and Composition Wrapper (`src/tool-guard.ts`) -/

/-- A tool-call argument: the wrapper treats string arguments specially
(redaction, URL checks) and passes every other value through untouched. -/
inductive JsArg where
  | str (s : String)
  | other
deriving DecidableEq

/-- Return value of the policy's custom `toolValidator`: strict `false`,
a string used verbatim as the block reason, or any other (truthy) value. -/
inductive ValidatorVerdict where
  | vfalse
  | vreason (s : String)
  | vpass

/-- Tool-policy fields consumed by `guardTool`. -/
structure ToolPolicy where
  toolBlocklist : Option (List String)
  toolAllowlist : Option (List String)
  toolValidator : Option (String → List JsArg → ValidatorVerdict)

/-- Result record of `guardTool` (`ToolGuardResult` in `src/types.ts`);
the allowed result carries no violations and no reason. -/
structure ToolGuardResult where
  allowed : Bool
  violations : List String
  reason : Option String
deriving DecidableEq

/-- The final `if (violations.length)` return of `guardTool`: blocked with a
blocklist-specific or generic reason, or allowed. -/
def toolPolicyFinish (tool : String) (violations : List String) : ToolGuardResult :=
  if violations.isEmpty then ⟨true, [], none⟩
  else
    ⟨false, violations,
     some (if violations.contains "tool-blocked"
           then "Tool \x27" ++ tool ++ "\x27 is explicitly blocked by policy."
           else "Tool \x27" ++ tool ++ "\x27 failed security policy validation.")⟩

/-- Embedding of `guardTool` (`src/tool-guard.ts`): no policy ⇒ allowed;
otherwise blocklist membership, allowlist exclusion (only when the allowlist
is non-empty), then the custom validator — a string verdict short-circuits
immediately with that reason. -/
def guardTool (tool : String) (args : List JsArg) (policy : Option ToolPolicy) :
    ToolGuardResult :=
  match policy with
  | none => ⟨true, [], none⟩
  | some policy =>
    let v1 : List String :=
      if (policy.toolBlocklist.getD []).contains tool then ["tool-blocked"] else []
    let v2 : List String := v1 ++
      (match policy.toolAllowlist with
       | some allow =>
         if !allow.isEmpty && !allow.contains tool then ["tool-not-allowed"] else []
       | none => [])
    match policy.toolValidator with
    | some validator =>
      (match validator tool args with
       | .vreason s => ⟨false, ["tool-validation-failed"], some s⟩
       | .vfalse => toolPolicyFinish tool (v2 ++ ["tool-validation-failed"])
       | .vpass => toolPolicyFinish tool v2)
    | none => toolPolicyFinish tool v2

/-- The wrapper's step-1 rejection message:
`[Agntor] Tool "name" blocked: reason-or-joined-violations`. -/
def blockedToolMsg (toolName : String) (check : ToolGuardResult) : String :=
  "[Agntor] Tool \"" ++ toolName ++ "\" blocked: " ++
    check.reason.getD (String.intercalate ", " check.violations)

/-- The wrapper's URL heuristic `/^https?:\/\//i.test(value.trim())`. -/
def isLikelyUrl (value : String) : Bool :=
  "http://".data.isPrefixOf (strLower (strTrim value)).data ||
  "https://".data.isPrefixOf (strLower (strTrim value)).data

/-- Step 4 of the wrapper: validate every URL-shaped string argument; the
SSRF oracle returns `some err` when `validateUrl` would throw `err`. -/
def ssrfScan (ssrfFn : String → Option String) (toolName : String) :
    List JsArg → Except String Unit
  | [] => .ok ()
  | .str s :: rest =>
    if isLikelyUrl s then
      match ssrfFn s with
      | some err => .error ("[Agntor] Tool \"" ++ toolName ++ "\" blocked — SSRF risk: " ++ err)
      | none => ssrfScan ssrfFn toolName rest
    else ssrfScan ssrfFn toolName rest
  | .other :: rest => ssrfScan ssrfFn toolName rest

/-- Embedding of the function returned by `wrapAgentTool`
(`src/tool-guard.ts`), for one invocation with argument list `args`.
`toolName` is the declared-or-inferred name; `redactFn` stands for
`redact(·, policy).redacted`, `guardFn` for the pattern guard run on the
serialised redacted arguments (`block` decided by its classification), and
`ssrfFn` for `validateUrl` (`some err` = throw).  An `Except.error` models
the wrapper throwing; `Except.ok` carries the original function's result on
the sanitised arguments. -/
def wrapAgentTool {ρ : Type} (toolFn : List JsArg → ρ) (policy : ToolPolicy)
    (toolName : String) (redactFn : String → String) (guardFn : List JsArg → GuardResult)
    (ssrfCheck : Bool) (ssrfFn : String → Option String) (args : List JsArg) :
    Except String ρ :=
  let toolCheck := guardTool toolName args (some policy)
  if toolCheck.allowed then
    let safeArgs := args.map fun a =>
      match a with
      | .str s => JsArg.str (redactFn s)
      | .other => JsArg.other
    let g := guardFn safeArgs
    if g.classification = .block then
      .error ("[Agntor] Tool \"" ++ toolName ++ "\" input blocked by guard: " ++
        String.intercalate ", " g.violation_types)
    else
      match (if ssrfCheck then ssrfScan ssrfFn toolName safeArgs else .ok ()) with
      | .error e => .error e
      | .ok _ => .ok (toolFn safeArgs)
  else .error (blockedToolMsg toolName toolCheck)

/-! ### Network Safety Check (`src/utils/network.ts`) -/

/-- The fields of a WHATWG-parsed URL the validator inspects. -/
structure UrlParts where
  protocol : String
  hostname : String
deriving DecidableEq

/-- The source's `hostname.replace(/^\[|\]$/g, '')`: strip one leading `[`
and one trailing `]`. -/
def stripBrackets (s : String) : String :=
  let d := s.data
  let d := if d.head? == some '[' then d.tail else d
  let d := if d.getLast? == some ']' then d.dropLast else d
  String.mk d

/-- The source's `MAX_URL_LENGTH`. -/
def maxUrlLength : Nat := 2048

/-- The over-length rejection message of `validateUrl`. -/
def maxLengthMsg : String :=
  "Invalid URL: URL exceeds maximum length of " ++ toString maxUrlLength ++ " characters"

/-- Embedding of `isPrivateIp`: special local hostnames, then a direct IP
literal test via `ipaddr.js` (`ipValid` / `ipPrivate` oracles), then DNS
resolution (`dns` oracle); a failed lookup (`none`) is treated as private —
the fail-closed branch. -/
def isPrivateIp (ipValid ipPrivate : String → Bool) (dns : String → Option (List String))
    (hostname : String) : Bool :=
  let lower := strLower hostname
  if lower == "localhost" || lower == "localhost.localdomain" || lower == "local" ||
     lower == "127.0.0.1" || lower == "::1" then
    true
  else
    let clean := stripBrackets hostname
    if ipValid clean then ipPrivate clean
    else
      match dns clean with
      | some results => results.any ipPrivate
      | none => true

/-- Embedding of `validateUrl` (`src/utils/network.ts`): length cap, URL
parse, http(s)-only protocol, non-empty hostname, localhost rejection, then
the private-address check.  `Except.error` models the thrown `Error`. -/
def validateUrl (parseUrl : String → Option UrlParts) (ipValid ipPrivate : String → Bool)
    (dns : String → Option (List String)) (url : String) : Except String Unit :=
  if maxUrlLength < url.length then .error maxLengthMsg
  else
    match parseUrl url with
    | none => .error "Invalid URL: malformed URL format"
    | some parsed =>
      let protocol := strLower parsed.protocol
      if protocol ≠ "http:" ∧ protocol ≠ "https:" then
        if protocol = "file:" then .error "Invalid URL: file:// protocol is not allowed"
        else .error ("Invalid URL: protocol must be http or https, got " ++ protocol)
      else if parsed.hostname = "" then .error "Invalid URL: hostname is required"
      else
        let lower := strLower parsed.hostname
        let clean := stripBrackets parsed.hostname
        if lower = "localhost" ∨ lower = "localhost.localdomain" ∨ lower = "local" ∨
           clean = "127.0.0.1" ∨ clean = "::1" ∨ "127.".data.isPrefixOf clean.data then
          .error "Invalid URL: localhost access is not allowed"
        else if isPrivateIp ipValid ipPrivate dns parsed.hostname then
          .error "Invalid URL: private/internal IP addresses are not allowed"
        else .ok ()

/-! ### Concrete instances used by witnesses and counterexamples -/

/-- Empty guard policy (no caller patterns, no CWE map). -/
def emptyGuardPolicy : GuardPolicy := ⟨[], fun _ => none⟩

/-- Classifier stub that always fails with a fixed message. -/
def wClassifyFail : String → ClassifyOutcome := fun _ => .failure "provider exploded"

/-- Policy blocking the tool name `evil`. -/
def wBlockPolicy : ToolPolicy := ⟨some ["evil"], none, none⟩

/-- A guard result used as a pass-through stub for the wrapper's guard. -/
def wPassGuard : GuardResult := guardCore "" emptyGuardPolicy [] none none

/-- Redaction patterns for the left-most/longest witness: literal `ab` and
literal `a`. -/
def wRedactPats : List RPattern :=
  [⟨"ab", litMatches "ab", some "X"⟩, ⟨"a", litMatches "a", some "Y"⟩]

/-- Redaction patterns for the idempotence counterexample: replacing `ab` by
`Q` can create a fresh `aQ` match across the gap/replacement boundary even
though neither replacement token matches any pattern. -/
def cePats : List RPattern :=
  [⟨"ab", litMatches "ab", some "Q"⟩, ⟨"aQ", litMatches "aQ", some "Z"⟩]

/-- Metadata combining low reputation (0.1), a short description and the
zero address. -/
def wRiskyMeta : TransactionMeta :=
  { amount := "5", currency := "USDC",
    recipientAddress := String.mk ('0' :: 'x' :: List.replicate 40 '0'),
    serviceDescription := "pay", reputationScore := some ⟨0, 1, 1⟩,
    chainId := none, additionalContext := none }

/-- Options with a classifier that always passes. -/
def wRiskyOpts : SettlementGuardOptions := ⟨true, some fun _ => .ok .pass "looks fine"⟩

/-- Zero-address metadata with otherwise unremarkable fields. -/
def wZeroMeta : TransactionMeta :=
  { amount := "5", currency := "USDC",
    recipientAddress := "0x" ++ String.mk (List.replicate 40 '0'),
    serviceDescription := "a thorough data analysis service",
    reputationScore := none, chainId := none, additionalContext := none }

/-- Options whose classifier throws. -/
def wZeroOpts : SettlementGuardOptions := ⟨true, some fun _ => .failure "timeout"⟩

/-- Benign settlement metadata (no heuristic signals). -/
def wSettleMeta : TransactionMeta :=
  { amount := "5", currency := "USDC", recipientAddress := "0xabc",
    serviceDescription := "a thorough data analysis service",
    reputationScore := none, chainId := none, additionalContext := none }

/-- URL-parse oracle returning a fixed http host. -/
def wParseOracle : String → Option UrlParts := fun _ => some ⟨"http:", "example.com"⟩

/-- DNS oracle that always fails to resolve. -/
def wDnsFail : String → Option (List String) := fun _ => none

/-- IP oracle that recognises nothing. -/
def wNoBool : String → Bool := fun _ => false

/-- A 2049-character URL string. -/
def wLongUrl : String := String.mk (List.replicate 2049 'a')

/-! ### Helper lemmas -/

/-- Characterisation of `guardCore`: it classifies `block` exactly when the
raw violation list — equivalently, the deduplicated one — is non-empty. -/
theorem guardCore_block_iff (input : String) (policy : GuardPolicy)
    (violations : List String) (reasoning providerError : Option String) :
    (guardCore input policy violations reasoning providerError).classification = .block ↔
      (guardCore input policy violations reasoning providerError).violation_types ≠ [] := by
  cases violations with
  | nil => simp [guardCore, dedupKeepFirst, dedupAux]
  | cons x xs => simp [guardCore, dedupKeepFirst, dedupAux]

/-- Shared fail-open fact about `guard`: when the classifier call fails, the
result agrees with the classifier-free run on classification and violation
set, records the error message, and hands it to the error callback. -/
theorem guard_failure_agrees (builtins : List (String → Bool)) (input : String)
    (policy : GuardPolicy) (classify : String → ClassifyOutcome) (emsg : String)
    (h : classify input = .failure emsg) :
    (guard builtins input policy ⟨true, some classify⟩).1.classification =
      (guard builtins input policy ⟨false, none⟩).1.classification ∧
    (guard builtins input policy ⟨true, some classify⟩).1.violation_types =
      (guard builtins input policy ⟨false, none⟩).1.violation_types ∧
    (guard builtins input policy ⟨true, some classify⟩).1.providerError = some emsg ∧
    (guard builtins input policy ⟨true, some classify⟩).2 = some emsg := by
  simp [guard, h, guardCore]

/-! ### Claim theorems -/

/-- C5.  For every input, policy, and options, the guard result has
classification `block` if and only if its violation-type set is non-empty. -/
theorem guard_block_iff_violations (builtins : List (String → Bool)) (input : String)
    (policy : GuardPolicy) (opts : GuardOptions) :
    (guard builtins input policy opts).1.classification = .block ↔
      (guard builtins input policy opts).1.violation_types ≠ [] :=
  guardCore_block_iff _ _ _ _ _

/-- C2.  For every input, policy, and deep-scan classifier whose call fails
(throws, or returns a value not matching the `{classification, reasoning}`
shape), `guard` returns a result whose classification and violation set are
exactly those of the lexical and heuristic passes alone (the run without a
deep scan), with `providerError` set to the error's message and the
`onError` callback invoked with that error. -/
theorem guard_failOpen (builtins : List (String → Bool)) (input : String)
    (policy : GuardPolicy) (classify : String → ClassifyOutcome) (emsg : String)
    (h : classify input = .failure emsg) :
    (guard builtins input policy ⟨true, some classify⟩).1.classification =
      (guard builtins input policy ⟨false, none⟩).1.classification ∧
    (guard builtins input policy ⟨true, some classify⟩).1.violation_types =
      (guard builtins input policy ⟨false, none⟩).1.violation_types ∧
    (guard builtins input policy ⟨true, some classify⟩).1.providerError = some emsg ∧
    (guard builtins input policy ⟨true, some classify⟩).2 = some emsg :=
  guard_failure_agrees builtins input policy classify emsg h

/-- Witness for C2 at a concrete input and failing classifier. -/
theorem guard_failOpen_witness :
    wClassifyFail "hello" = .failure "provider exploded" ∧
    ((guard [] "hello" emptyGuardPolicy ⟨true, some wClassifyFail⟩).1.classification =
       (guard [] "hello" emptyGuardPolicy ⟨false, none⟩).1.classification ∧
     (guard [] "hello" emptyGuardPolicy ⟨true, some wClassifyFail⟩).1.violation_types =
       (guard [] "hello" emptyGuardPolicy ⟨false, none⟩).1.violation_types ∧
     (guard [] "hello" emptyGuardPolicy ⟨true, some wClassifyFail⟩).1.providerError =
       some "provider exploded" ∧
     (guard [] "hello" emptyGuardPolicy ⟨true, some wClassifyFail⟩).2 =
       some "provider exploded") :=
  ⟨rfl, guard_failOpen [] "hello" emptyGuardPolicy wClassifyFail "provider exploded" rfl⟩

/-- C1.  For every tool function, policy, and argument list, if `guardTool`
on the declared (or inferred) tool name returns not-allowed, the wrapped
function rejects with the step-1 message (which contains "blocked") — an
expression independent of the redaction, guard, SSRF and tool oracles, so
none of them is invoked. -/
theorem wrapAgentTool_blocked {ρ : Type} (toolFn : List JsArg → ρ) (policy : ToolPolicy)
    (toolName : String) (redactFn : String → String) (guardFn : List JsArg → GuardResult)
    (ssrfCheck : Bool) (ssrfFn : String → Option String) (args : List JsArg)
    (h : (guardTool toolName args (some policy)).allowed = false) :
    wrapAgentTool toolFn policy toolName redactFn guardFn ssrfCheck ssrfFn args =
      .error (blockedToolMsg toolName (guardTool toolName args (some policy))) ∧
    "blocked".data <:+: (blockedToolMsg toolName (guardTool toolName args (some policy))).data := by
  constructor
  · simp [wrapAgentTool, h]
  · have h1 : "blocked".data <:+: "\" blocked: ".data := by decide
    have h2 : ("\" blocked: ").data <:+:
        ("[Agntor] Tool \"".data ++ toolName.data) ++ "\" blocked: ".data ++
          ((guardTool toolName args (some policy)).reason.getD
            (String.intercalate ", " (guardTool toolName args (some policy)).violations)).data :=
      List.infix_append _ _ _
    have hdata : (blockedToolMsg toolName (guardTool toolName args (some policy))).data =
        ("[Agntor] Tool \"".data ++ toolName.data) ++ "\" blocked: ".data ++
          ((guardTool toolName args (some policy)).reason.getD
            (String.intercalate ", " (guardTool toolName args (some policy)).violations)).data := by
      simp [blockedToolMsg, strData_append, List.append_assoc]
    rw [hdata]
    exact h1.trans h2

/-- Witness for C1: a blocklisted tool name is rejected with the blocked
message, for a concrete stub tool. -/
theorem wrapAgentTool_blocked_witness :
    (guardTool "evil" [] (some wBlockPolicy)).allowed = false ∧
    (wrapAgentTool (fun _ => (0 : Nat)) wBlockPolicy "evil" (fun s => s)
        (fun _ => wPassGuard) true (fun _ => none) [] =
      .error (blockedToolMsg "evil" (guardTool "evil" [] (some wBlockPolicy))) ∧
     "blocked".data <:+: (blockedToolMsg "evil" (guardTool "evil" [] (some wBlockPolicy))).data) :=
  ⟨by decide,
   wrapAgentTool_blocked (fun _ => (0 : Nat)) wBlockPolicy "evil" (fun s => s)
     (fun _ => wPassGuard) true (fun _ => none) [] (by decide)⟩

/-- Every collected candidate's end offset is its start plus the length of
the matched text. -/
theorem collectMatches_stop_eq (input : String) (pats : List RPattern) :
    ∀ m ∈ collectMatches input pats, m.stop = m.start + m.value.length := by
  intro m hm
  simp only [collectMatches, List.mem_flatMap, List.mem_map] at hm
  obtain ⟨p, _, a, _, rfl⟩ := hm
  rfl

/-- Sortedness of the candidate sort. -/
theorem sortMatches_sorted (ms : List RMatch) : List.Sorted matchLE (sortMatches ms) :=
  List.sorted_insertionSort matchLE ms

/-- The candidate sort permutes its input. -/
theorem sortMatches_perm (ms : List RMatch) : (sortMatches ms).Perm ms :=
  List.perm_insertionSort matchLE ms

/-- Membership is preserved by the candidate sort. -/
theorem sortMatches_mem {ms : List RMatch} {m : RMatch} : m ∈ sortMatches ms ↔ m ∈ ms :=
  (sortMatches_perm ms).mem_iff

/-- Every finding the cursor walk emits takes its type, span and value from
some candidate whose start is at or after the starting cursor (for
candidates with well-formed spans). -/
theorem applyMatches_mem_span (text : List Char) (ms : List RMatch) :
    ∀ (cursor : Nat), (∀ x ∈ ms, x.start ≤ x.stop) →
      ∀ f ∈ (applyMatches text ms cursor).2,
      ∃ m ∈ ms, f.type = m.type ∧ f.span = (m.start, m.stop) ∧ f.value = m.value ∧
        cursor ≤ m.start := by
  induction ms with
  | nil => intro cursor _ f hf; simp [applyMatches] at hf
  | cons m rest ih =>
    intro cursor hws f hf
    have hrest : ∀ x ∈ rest, x.start ≤ x.stop :=
      fun x hx => hws x (List.mem_cons_of_mem _ hx)
    have hm : m.start ≤ m.stop := hws m (List.mem_cons_self _ _)
    simp only [applyMatches] at hf
    split at hf
    case isTrue hlt =>
      obtain ⟨m', hm', h1, h2, h3, h4⟩ := ih cursor hrest f hf
      exact ⟨m', List.mem_cons_of_mem _ hm', h1, h2, h3, h4⟩
    case isFalse hnlt =>
      rcases List.mem_cons.mp hf with rfl | hftail
      · exact ⟨m, List.mem_cons_self _ _, rfl, rfl, rfl, by omega⟩
      · obtain ⟨m', hm', h1, h2, h3, h4⟩ := ih m.stop hrest f hftail
        exact ⟨m', List.mem_cons_of_mem _ hm', h1, h2, h3, by omega⟩

/-- Findings of the cursor walk are pairwise non-overlapping and
start-sorted, provided every candidate's span is well-formed. -/
theorem applyMatches_pairwise (text : List Char) (ms : List RMatch) :
    ∀ cursor : Nat, (∀ m ∈ ms, m.start ≤ m.stop) →
      List.Pairwise (fun f g : Finding => f.span.2 ≤ g.span.1 ∧ f.span.1 ≤ g.span.1)
        (applyMatches text ms cursor).2 := by
  induction ms with
  | nil => intro cursor _; simp [applyMatches]
  | cons m rest ih =>
    intro cursor hws
    have hrest : ∀ x ∈ rest, x.start ≤ x.stop :=
      fun x hx => hws x (List.mem_cons_of_mem _ hx)
    show List.Pairwise _ ((if m.start < cursor then applyMatches text rest cursor else _) : _ × _).2
    split
    · exact ih cursor hrest
    · show List.Pairwise _ (⟨m.type, (m.start, m.stop), m.value⟩ ::
        (applyMatches text rest m.stop).2)
      refine List.Pairwise.cons ?_ (ih m.stop hrest)
      intro g hg
      obtain ⟨m', _, _, hsp, _, hge⟩ := applyMatches_mem_span text rest m.stop hrest g hg
      have hmstop : m.start ≤ m.stop := hws m (List.mem_cons_self _ _)
      rw [hsp]
      exact ⟨hge, Nat.le_trans hmstop hge⟩

/-- No finding of the cursor walk can carry a span strictly shorter than
some candidate's span at the same start offset, when the candidates are
sorted by the source comparator: the longer candidate is processed first. -/
theorem applyMatches_no_shorter (text : List Char) (ms : List RMatch) :
    ∀ (cursor s L : Nat), List.Pairwise matchLE ms → (∀ x ∈ ms, x.start ≤ x.stop) →
      (∃ c ∈ ms, c.start = s ∧ s + L < c.stop) →
      ∀ f ∈ (applyMatches text ms cursor).2, f.span ≠ (s, s + L) := by
  induction ms with
  | nil => intro _ _ _ _ _ hex; simp at hex
  | cons m rest ih =>
    intro cursor s L hp hws hex f hf
    have hrest : ∀ x ∈ rest, x.start ≤ x.stop :=
      fun x hx => hws x (List.mem_cons_of_mem _ hx)
    obtain ⟨c, hc, hcs, hcl⟩ := hex
    simp only [applyMatches] at hf
    split at hf
    case isTrue hlt =>
      rcases List.mem_cons.mp hc with rfl | hcr
      · obtain ⟨m', _, _, hsp, _, hge⟩ := applyMatches_mem_span text rest cursor hrest f hf
        rw [hsp]
        intro hspan
        rw [Prod.mk.injEq] at hspan
        omega
      · exact ih cursor s L hp.of_cons hrest ⟨c, hcr, hcs, hcl⟩ f hf
    case isFalse hnlt =>
      rcases List.mem_cons.mp hf with rfl | hftail
      · show ((m.start, m.stop) : Nat × Nat) ≠ (s, s + L)
        intro hspan
        rw [Prod.mk.injEq] at hspan
        rcases List.mem_cons.mp hc with rfl | hcr
        · omega
        · have hmc := (List.pairwise_cons.mp hp).1 c hcr
          unfold matchLE at hmc
          omega
      · rcases List.mem_cons.mp hc with rfl | hcr
        · obtain ⟨m', _, _, hsp, _, hge⟩ := applyMatches_mem_span text rest c.stop hrest f hftail
          rw [hsp]
          intro hspan
          rw [Prod.mk.injEq] at hspan
          omega
        · exact ih m.stop s L hp.of_cons hrest ⟨c, hcr, hcs, hcl⟩ f hftail

/-- A redaction run with no candidate matches returns the input unchanged
with no findings. -/
theorem redact_collect_nil (s : String) (pats : List RPattern)
    (h : collectMatches s pats = []) : redact s pats = ⟨s, []⟩ := by
  have hs : sortMatches (collectMatches s pats) = [] := by rw [h]; rfl
  show ({ redacted := String.mk (applyMatches s.data (sortMatches (collectMatches s pats)) 0).1,
          findings := (applyMatches s.data (sortMatches (collectMatches s pats)) 0).2 } :
         RedactResult) = ⟨s, []⟩
  rw [hs]
  show ({ redacted := String.mk (s.data.drop 0), findings := [] } : RedactResult) = ⟨s, []⟩
  rw [List.drop_zero]

/-- C6.  For every input and pattern list, the findings returned by `redact`
are pairwise non-overlapping (each later span starts at or after each
earlier span's end) and sorted by start offset ascending. -/
theorem redact_findings_nonoverlapping_sorted (input : String) (pats : List RPattern) :
    List.Pairwise (fun f g : Finding => f.span.2 ≤ g.span.1) (redact input pats).findings ∧
    List.Pairwise (fun f g : Finding => f.span.1 ≤ g.span.1) (redact input pats).findings := by
  have hws : ∀ m ∈ sortMatches (collectMatches input pats), m.start ≤ m.stop := by
    intro m hm
    have := collectMatches_stop_eq input pats m (sortMatches_mem.mp hm)
    omega
  have hpw := applyMatches_pairwise input.data (sortMatches (collectMatches input pats)) 0 hws
  exact ⟨List.Pairwise.imp (fun h => h.1) hpw, List.Pairwise.imp (fun h => h.2) hpw⟩

/-- C7.  The overlap resolution of `redact` is leftmost-then-longest:
(1) the candidate list is sorted by start ascending and, at equal start, by
span length descending (a permutation of the collected candidates);
(2) a candidate-length span strictly shorter than some candidate's span at
the same start offset never appears among the findings — the longer match at
a given start wins; and (3) when any candidate exists, the first candidate in
sorted order — one of minimal start — is applied verbatim as the first
finding, so an earlier-starting match is never superseded by a longer
later-starting one. -/
theorem redact_leftmost_longest (input : String) (pats : List RPattern) :
    (List.Sorted matchLE (sortMatches (collectMatches input pats)) ∧
      (sortMatches (collectMatches input pats)).Perm (collectMatches input pats)) ∧
    (∀ c ∈ collectMatches input pats, ∀ L : Nat, c.start + L < c.stop →
      ∀ f ∈ (redact input pats).findings, f.span ≠ (c.start, c.start + L)) ∧
    (∀ m rest, sortMatches (collectMatches input pats) = m :: rest →
      (∀ c ∈ collectMatches input pats, m.start ≤ c.start) ∧
      (redact input pats).findings.head? = some ⟨m.type, (m.start, m.stop), m.value⟩) := by
  have hws : ∀ x ∈ sortMatches (collectMatches input pats), x.start ≤ x.stop := by
    intro x hx
    have := collectMatches_stop_eq input pats x (sortMatches_mem.mp hx)
    omega
  refine ⟨⟨sortMatches_sorted _, sortMatches_perm _⟩, ?_, ?_⟩
  · intro c hc L hL f hf
    exact applyMatches_no_shorter input.data _ 0 c.start L (sortMatches_sorted _) hws
      ⟨c, sortMatches_mem.mpr hc, rfl, hL⟩ f hf
  · intro m rest heq
    constructor
    · intro c hc
      rcases List.mem_cons.mp (heq ▸ sortMatches_mem.mpr hc : c ∈ m :: rest) with rfl | hcr
      · exact le_refl _
      · have hp := sortMatches_sorted (collectMatches input pats)
        rw [heq] at hp
        have := (List.pairwise_cons.mp hp).1 c hcr
        unfold matchLE at this
        omega
    · show (applyMatches input.data (sortMatches (collectMatches input pats)) 0).2.head? = _
      rw [heq]
      simp [applyMatches]

/-- Witness for C7: on `"aab"` with literal patterns `ab ↦ X` and `a ↦ Y`,
the candidate `ab` at offset 1 excludes the shorter span (1, 2) from the
findings. -/
theorem redact_leftmost_longest_witness :
    ((⟨1, 3, "ab", "X", "ab"⟩ : RMatch) ∈ collectMatches "aab" wRedactPats ∧
     (⟨1, 3, "ab", "X", "ab"⟩ : RMatch).start + 1 < (⟨1, 3, "ab", "X", "ab"⟩ : RMatch).stop ∧
     (⟨"a", (0, 1), "a"⟩ : Finding) ∈ (redact "aab" wRedactPats).findings) ∧
    (⟨"a", (0, 1), "a"⟩ : Finding).span ≠
      ((⟨1, 3, "ab", "X", "ab"⟩ : RMatch).start, (⟨1, 3, "ab", "X", "ab"⟩ : RMatch).start + 1) :=
  ⟨⟨by decide, by decide, by decide⟩,
   (redact_leftmost_longest "aab" wRedactPats).2.1 ⟨1, 3, "ab", "X", "ab"⟩ (by decide) 1
     (by decide) ⟨"a", (0, 1), "a"⟩ (by decide)⟩

/-- C8 counterexample.  With patterns `ab ↦ Q` and `aQ ↦ Z` no replacement
token matches any pattern, yet redacting `"aab"` yields `"aQ"`, and a second
redaction pass matches the fresh `aQ` formed across the gap/replacement
boundary and changes the text — the claimed idempotence fails. -/
theorem redact_not_idempotent :
    replacementTokenFree cePats = true ∧
    (redact "aab" cePats).redacted = "aQ" ∧
    ¬ ((redact (redact "aab" cePats).redacted cePats).redacted = (redact "aab" cePats).redacted ∧
       (redact (redact "aab" cePats).redacted cePats).findings = []) := by
  refine ⟨by decide, by decide, ?_⟩
  intro hcl
  have : (redact (redact "aab" cePats).redacted cePats).redacted = (redact "aab" cePats).redacted :=
    hcl.1
  revert this
  decide

/-- C8 (amended).  Reapplying redaction to already-redacted text changes
nothing — returning the text unchanged with an empty findings list —
whenever no pattern matches anywhere in the redacted text (the stronger
proviso forced by the counterexample: replacement tokens not matching any
pattern is not sufficient, since a match can form across a gap/replacement
boundary). -/
theorem redact_idempotent_of_no_rescan (input : String) (pats : List RPattern)
    (h : collectMatches (redact input pats).redacted pats = []) :
    redact (redact input pats).redacted pats = ⟨(redact input pats).redacted, []⟩ :=
  redact_collect_nil _ pats h

/-- Witness for the amended C8 at a concrete input whose redacted output
admits no further matches. -/
theorem redact_idempotent_witness :
    collectMatches (redact "b" cePats).redacted cePats = [] ∧
    redact (redact "b" cePats).redacted cePats = ⟨(redact "b" cePats).redacted, []⟩ :=
  ⟨by decide, redact_idempotent_of_no_rescan "b" cePats (by decide)⟩

/-- A zero-address recipient pushes the heuristic risk score to at least 0.5
(10 scaled) and records the zero-address risk factor. -/
theorem heuristicAnalysis_zero_bound (meta : TransactionMeta)
    (h : isZeroAddress meta.recipientAddress = true) :
    10 ≤ (heuristicAnalysis meta).riskScore ∧
    "Recipient is the zero address" ∈ (heuristicAnalysis meta).riskFactors := by
  constructor
  · unfold heuristicAnalysis
    rcases hrep : meta.reputationScore with _ | r <;>
      rcases hamt : jsParseFloat (stripNonNumeric meta.amount) with _ | v <;>
        simp only [hrep, hamt, h, KNOWN_BAD_ADDRESSES, if_true] <;>
          split_ifs <;> omega
  · unfold heuristicAnalysis
    rcases hrep : meta.reputationScore with _ | r <;>
      rcases hamt : jsParseFloat (stripNonNumeric meta.amount) with _ | v <;>
        simp only [hrep, hamt, h, KNOWN_BAD_ADDRESSES, if_true] <;>
          split_ifs <;> simp

/-- Shared fail-open fact about `settlementGuard`: below the conclusive
threshold, a failing classifier yields the heuristic fallback verdict and
reports the error to the callback. -/
theorem settlementGuard_failure_fallback (meta : TransactionMeta)
    (classify : String → ClassifyOutcome) (emsg : String)
    (hcl : classify (buildSettlementPrompt meta) = .failure emsg)
    (hlt : (heuristicAnalysis meta).riskScore < 14) :
    settlementGuard meta ⟨true, some classify⟩ =
      (heuristicFallback (heuristicAnalysis meta), some emsg) := by
  have hn : ¬ 14 ≤ (heuristicAnalysis meta).riskScore := by omega
  simp [settlementGuard, hn, hcl]

/-- C3.  For every transaction metadata whose heuristic risk score reaches
0.7 (14 scaled), `settlementGuard` returns `block` with that heuristic score
and the triggered risk factors — an expression independent of the options'
classifier, which is therefore never invoked; and any metadata combining low
reputation (< 0.3), a service description shorter than 10 characters after
trimming, and a zero-address recipient reaches that threshold. -/
theorem settlementGuard_heuristic_shortCircuit :
    (∀ (meta : TransactionMeta) (opts : SettlementGuardOptions),
      14 ≤ (heuristicAnalysis meta).riskScore →
      settlementGuard meta opts =
        ({ classification := .block
           reasoning := "Blocked by heuristic analysis: " ++
             String.intercalate "; " (heuristicAnalysis meta).riskFactors
           riskScore := (heuristicAnalysis meta).riskScore
           riskFactors := (heuristicAnalysis meta).riskFactors }, none)) ∧
    (∀ meta : TransactionMeta,
      (∃ r, meta.reputationScore = some r ∧ r.ltTenths 3 = true) →
      (strTrim meta.serviceDescription).length < 10 →
      isZeroAddress meta.recipientAddress = true →
      14 ≤ (heuristicAnalysis meta).riskScore) := by
  constructor
  · intro meta opts h
    simp [settlementGuard, h]
  · rintro meta ⟨r, hrep, hlt⟩ hdesc hzero
    unfold heuristicAnalysis
    rcases hamt : jsParseFloat (stripNonNumeric meta.amount) with _ | v <;>
      simp only [hrep, hamt, hlt, hzero, hdesc, KNOWN_BAD_ADDRESSES, if_true] <;>
        split_ifs <;> omega

/-- Witness for C3: low reputation (0.1), short description and zero address
reach the conclusive threshold and block with the heuristic score. -/
theorem settlementGuard_shortCircuit_witness :
    14 ≤ (heuristicAnalysis wRiskyMeta).riskScore ∧
    (settlementGuard wRiskyMeta wRiskyOpts).1.classification = .block ∧
    (settlementGuard wRiskyMeta wRiskyOpts).1.riskScore = (heuristicAnalysis wRiskyMeta).riskScore := by
  have h14 := settlementGuard_heuristic_shortCircuit.2 wRiskyMeta
    ⟨⟨0, 1, 1⟩, rfl, by decide⟩ (by decide) (by decide)
  refine ⟨h14, ?_, ?_⟩ <;>
    rw [settlementGuard_heuristic_shortCircuit.1 wRiskyMeta wRiskyOpts h14]

/-- C4.  For every metadata with an all-zero recipient address and every
options — deep scan or not, whatever the classifier returns or throws —
`settlementGuard` blocks and its risk factors contain an entry mentioning
"zero address". -/
theorem settlementGuard_zeroAddress_blocks (meta : TransactionMeta)
    (opts : SettlementGuardOptions) (h : isZeroAddress meta.recipientAddress = true) :
    (settlementGuard meta opts).1.classification = .block ∧
    ∃ f ∈ (settlementGuard meta opts).1.riskFactors, "zero address".data <:+: f.data := by
  obtain ⟨hsc, hmem⟩ := heuristicAnalysis_zero_bound meta h
  have hinf : "zero address".data <:+: "Recipient is the zero address".data := by decide
  rcases opts with ⟨ds, prov⟩
  by_cases h14 : 14 ≤ (heuristicAnalysis meta).riskScore
  · simp only [settlementGuard, if_pos h14]
    exact ⟨trivial, ⟨_, hmem, hinf⟩⟩
  · rcases ds with _ | _ <;> rcases prov with _ | classify <;>
      simp only [settlementGuard, if_neg h14]
    · exact ⟨by simp [heuristicFallback, hsc], ⟨_, hmem, hinf⟩⟩
    · exact ⟨by simp [heuristicFallback, hsc], ⟨_, hmem, hinf⟩⟩
    · exact ⟨by simp [heuristicFallback, hsc], ⟨_, hmem, hinf⟩⟩
    · rcases hcl : classify (buildSettlementPrompt meta) with ⟨c, r⟩ | msg <;> simp only [hcl]
      · rcases c with _ | _
        · exact ⟨by simp [hsc], ⟨_, hmem, hinf⟩⟩
        · refine ⟨by simp; omega, ?_⟩
          refine ⟨"Recipient is the zero address", ?_, hinf⟩
          simp only [if_true, List.mem_append]
          exact Or.inl hmem
      · exact ⟨by simp [heuristicFallback, hsc], ⟨_, hmem, hinf⟩⟩

/-- Witness for C4: a zero-address recipient with a throwing classifier is
blocked with the zero-address factor. -/
theorem settlementGuard_zeroAddress_witness :
    isZeroAddress wZeroMeta.recipientAddress = true ∧
    ((settlementGuard wZeroMeta wZeroOpts).1.classification = .block ∧
     ∃ f ∈ (settlementGuard wZeroMeta wZeroOpts).1.riskFactors, "zero address".data <:+: f.data) :=
  ⟨by decide, settlementGuard_zeroAddress_blocks wZeroMeta wZeroOpts (by decide)⟩

/-- When the hostname is no direct IP literal and its DNS lookup fails, the
private-address check answers private — the fail-closed branch. -/
theorem isPrivateIp_of_unresolved (ipValid ipPrivate : String → Bool)
    (dns : String → Option (List String)) (hostname : String)
    (hv : ipValid (stripBrackets hostname) = false)
    (hd : dns (stripBrackets hostname) = none) :
    isPrivateIp ipValid ipPrivate dns hostname = true := by
  simp [isPrivateIp, hv, hd]

/-- C9.  The network safety check is fail-closed: whenever the parsed
hostname is not a direct IP literal and the DNS lookup fails, `validateUrl`
rejects the URL; whereas classifier failures are fail-open in the pattern
guard (classification unchanged from the classifier-free run) and in the
settlement guard (heuristic fallback verdict). -/
theorem network_failClosed_guards_failOpen :
    (∀ (parseUrl : String → Option UrlParts) (ipValid ipPrivate : String → Bool)
       (dns : String → Option (List String)) (url : String) (parts : UrlParts),
       parseUrl url = some parts →
       ipValid (stripBrackets parts.hostname) = false →
       dns (stripBrackets parts.hostname) = none →
       ∃ e, validateUrl parseUrl ipValid ipPrivate dns url = .error e) ∧
    (∀ (builtins : List (String → Bool)) (input : String) (policy : GuardPolicy)
       (classify : String → ClassifyOutcome) (emsg : String),
       classify input = .failure emsg →
       (guard builtins input policy ⟨true, some classify⟩).1.classification =
         (guard builtins input policy ⟨false, none⟩).1.classification) ∧
    (∀ (meta : TransactionMeta) (classify : String → ClassifyOutcome) (emsg : String),
       classify (buildSettlementPrompt meta) = .failure emsg →
       (heuristicAnalysis meta).riskScore < 14 →
       settlementGuard meta ⟨true, some classify⟩ =
         (heuristicFallback (heuristicAnalysis meta), some emsg)) := by
  refine ⟨?_, ?_, ?_⟩
  · intro parseUrl ipValid ipPrivate dns url parts hp hv hd
    have hpriv := isPrivateIp_of_unresolved ipValid ipPrivate dns parts.hostname hv hd
    unfold validateUrl
    split
    · exact ⟨_, rfl⟩
    · rw [hp]
      simp only [hpriv]
      split
      · split
        · exact ⟨_, rfl⟩
        · exact ⟨_, rfl⟩
      · split
        · exact ⟨_, rfl⟩
        · split
          · exact ⟨_, rfl⟩
          · exact ⟨_, rfl⟩
  · intro builtins input policy classify emsg h
    exact (guard_failure_agrees builtins input policy classify emsg h).1
  · intro meta classify emsg hcl hlt
    exact settlementGuard_failure_fallback meta classify emsg hcl hlt

/-- Witness for C9: an unresolvable host is rejected; a throwing classifier
leaves the pattern guard's classification and yields the settlement guard's
heuristic fallback. -/
theorem network_failClosed_witness :
    (wParseOracle "http://example.com" = some ⟨"http:", "example.com"⟩ ∧
     wNoBool (stripBrackets (UrlParts.mk "http:" "example.com").hostname) = false ∧
     wDnsFail (stripBrackets (UrlParts.mk "http:" "example.com").hostname) = none ∧
     wClassifyFail "hi" = .failure "provider exploded" ∧
     wClassifyFail (buildSettlementPrompt wSettleMeta) = .failure "provider exploded" ∧
     (heuristicAnalysis wSettleMeta).riskScore < 14) ∧
    (∃ e, validateUrl wParseOracle wNoBool wNoBool wDnsFail "http://example.com" = .error e) ∧
    (guard [] "hi" emptyGuardPolicy ⟨true, some wClassifyFail⟩).1.classification =
      (guard [] "hi" emptyGuardPolicy ⟨false, none⟩).1.classification ∧
    settlementGuard wSettleMeta ⟨true, some wClassifyFail⟩ =
      (heuristicFallback (heuristicAnalysis wSettleMeta), some "provider exploded") := by
  refine ⟨⟨rfl, rfl, rfl, rfl, rfl, by decide⟩, ?_, ?_, ?_⟩
  · exact network_failClosed_guards_failOpen.1 wParseOracle wNoBool wNoBool wDnsFail
      "http://example.com" ⟨"http:", "example.com"⟩ rfl rfl rfl
  · exact network_failClosed_guards_failOpen.2.1 [] "hi" emptyGuardPolicy wClassifyFail
      "provider exploded" rfl
  · exact network_failClosed_guards_failOpen.2.2 wSettleMeta wClassifyFail
      "provider exploded" rfl (by decide)

/-- C10.  Every URL string longer than 2048 characters is rejected by
`validateUrl` with the maximum-length message — an expression independent of
the parse, IP and DNS oracles, so the check precedes any parsing, protocol,
hostname, or DNS step. -/
theorem validateUrl_maxLength (parseUrl : String → Option UrlParts)
    (ipValid ipPrivate : String → Bool) (dns : String → Option (List String))
    (url : String) (h : maxUrlLength < url.length) :
    validateUrl parseUrl ipValid ipPrivate dns url = .error maxLengthMsg ∧
    "maximum length".data <:+: maxLengthMsg.data := by
  constructor
  · simp [validateUrl, h]
  · decide

/-- Witness for C10: a 2049-character URL is rejected up front. -/
theorem validateUrl_maxLength_witness :
    maxUrlLength < wLongUrl.length ∧
    validateUrl wParseOracle wNoBool wNoBool wDnsFail wLongUrl = .error maxLengthMsg := by
  have h : maxUrlLength < wLongUrl.length := by
    show maxUrlLength < (List.replicate 2049 'a').length
    rw [List.length_replicate]
    decide
  exact ⟨h, (validateUrl_maxLength wParseOracle wNoBool wNoBool wDnsFail wLongUrl h).1⟩

end Agntor
